import Mathlib

/-!
Shallow embedding of the sentiment-extension popup scripts:
`src/sentiment-extension/popup.js` (which contains two script variants:
the main script at lines 1-199 and a legacy script at lines 200-317) and
`src/unnamed/part_000` (a third variant).

The response payload is modelled as a structure of optional fields
(`none` models a JavaScript `undefined`/absent field).  JavaScript
numbers are modelled as `ℚ`; `none : Option ℚ` models `NaN` where a
computation can produce it.  DOM writes are modelled as fields of an
output structure, and a `TypeError` escaping `displayResults` is
modelled by the `RenderResult.threw` constructor (carrying the header
writes performed before the throwing statement, matching source order).
-/

namespace Popup

/-- JavaScript `x || default` for an optional string: `undefined`, `null`
and the empty string are falsy. -/
def jsOrStr (o : Option String) (d : String) : String :=
  match o with
  | none => d
  | some s => if s = "" then d else s

/-- JavaScript `x || default` for an optional number: `undefined`, `null`
and `0` are falsy (a `NaN` stored in the field is not modelled). -/
def jsOrRat (o : Option ℚ) (d : ℚ) : ℚ :=
  match o with
  | none => d
  | some v => if v = 0 then d else v

/-- Numeric value of a list of decimal digit characters. -/
def digitsVal (cs : List Char) : ℕ :=
  cs.foldl (fun a c => a * 10 + (c.toNat - 48)) 0

/-- Model of the JavaScript global `parseFloat`, restricted to the shapes
reachable here: an optional sign followed by a decimal significand
(integer digits, an optional point, fraction digits), reading the longest
numeric prefix.  Leading whitespace, exponents and `Infinity` are not
modelled.  `none` models `NaN` (no parseable numeric prefix). -/
def parseFloat (s : String) : Option ℚ :=
  let signAndRest : ℚ × List Char :=
    match s.data with
    | '-' :: r => (-1, r)
    | '+' :: r => (1, r)
    | cs => (1, cs)
  let sgn := signAndRest.1
  let cs := signAndRest.2
  let ip := cs.takeWhile Char.isDigit
  let rest := cs.dropWhile Char.isDigit
  let fp : List Char :=
    match rest with
    | '.' :: r => r.takeWhile Char.isDigit
    | _ => []
  if ip.isEmpty && fp.isEmpty then none
  else some (sgn * ((digitsVal ip : ℚ) + (digitsVal fp : ℚ) / (10 : ℚ) ^ fp.length))

/-- `(s.split(' '))[0]` — the leading space-separated token: the prefix
of `s` up to (excluding) its first space character. -/
def leadingToken (s : String) : String :=
  String.mk (s.data.takeWhile fun c => c ≠ ' ')

/-- The parsed rating used by the fallback score:
`parseFloat((data.rating || "0").split(' ')[0])`
(popup.js line 102, part_000 line 77).  `none` models `NaN`. -/
def ratingNumber (rating : Option String) : Option ℚ :=
  parseFloat (leadingToken (jsOrStr rating "0"))

/-- `public_opinion` object of the response. -/
structure PublicOpinion where
  positive_percent : Option ℚ
  deriving DecidableEq

/-- One entry of the pros/cons lists: `{ keyword, examples }`. -/
structure VerdictItem where
  keyword : Option String
  examples : Option (List String)
  deriving DecidableEq

/-- `pros_cons_panel` object of the response. -/
structure ProsConsPanel where
  pros : Option (List VerdictItem)
  cons : Option (List VerdictItem)
  deriving DecidableEq

/-- The response payload (AnalysisResult).  Every field is optional;
`none` models an absent field. -/
structure AnalysisResult where
  product_name : Option String
  product_url : Option String
  rating : Option String
  overall_score : Option ℚ
  public_opinion : Option PublicOpinion
  review_summary_generator : Option String
  pros_cons_panel : Option ProsConsPanel
  deriving DecidableEq

/-- `calculateScore` (popup.js lines 101-106), before the `.toFixed(1)`
display rounding: `((rating / 5 * 10) * 0.6) + ((positive_percent / 10) * 0.4)`.
`none` models a `NaN` score, propagated from an unparseable rating. -/
def calculateScore (rating : Option String) (po : PublicOpinion) : Option ℚ :=
  (ratingNumber rating).map fun r =>
    (r / 5 * 10) * (6 / 10) + (jsOrRat po.positive_percent 0 / 10) * (4 / 10)

/-- Rounding to one decimal place, the value displayed by `.toFixed(1)`
(which rounds to the nearest multiple of 1/10, picking the larger
candidate at a tie, i.e. `⌊x + 1/2⌋`, the same as `round`). -/
def roundTo1 (q : ℚ) : ℚ :=
  ((q * 10 + 1 / 2).floor : ℤ) / 10

/-- The numeric value of the fallback score string `score.toFixed(1)`. -/
def fallbackScore (rating : Option String) (po : PublicOpinion) : Option ℚ :=
  (calculateScore rating po).map roundTo1

/-- The score rendered into `scoreEl`:
`data.overall_score || calculateScore(data)` (popup.js line 88;
part_000 lines 74-81 use an equivalent `if (data.overall_score)` test).
JavaScript truthiness on numbers treats `0` as falsy, so a present but
zero `overall_score` falls through to the computed score. -/
def displayedScore (d : AnalysisResult) (po : PublicOpinion) : Option ℚ :=
  match d.overall_score with
  | some v => if v = 0 then fallbackScore d.rating po else some v
  | none => fallbackScore d.rating po

/-- `item.examples[0].length > 50 ? item.examples[0].substring(0, 50) + '...'
: item.examples[0]` (popup.js line 123, part_000 line 125).  Characters
model the string units `substring`/`length` operate on. -/
def truncateExample (s : String) : String :=
  if 50 < s.length then String.mk (s.data.take 50) ++ "..." else s

/-- One rendered `<li>` of a verdict list: the keyword span content and,
when at least one example exists, the truncated quote (which the DOM
wraps in quotation marks). -/
structure RenderedVerdictItem where
  keyword : Option String
  quote : Option String
  deriving DecidableEq

/-- Rendering of one item inside `populateVerdictList`: the quote is
emitted only `if (item.examples && item.examples.length > 0)`. -/
def renderVerdictItem (item : VerdictItem) : RenderedVerdictItem :=
  { keyword := item.keyword
    quote :=
      match item.examples with
      | some (e :: _) => some (truncateExample e)
      | _ => none }

/-- Output of a verdict list: either the single `N/A` placeholder entry
or the list of rendered items. -/
inductive VerdictListOutput where
  | na
  | entries (items : List RenderedVerdictItem)
  deriving DecidableEq

/-- `populateVerdictList` (popup.js lines 108-130, part_000 lines
97-135): `N/A` when `!items || items.length === 0`, otherwise the first
four items via `items.slice(0, 4)`. -/
def populateVerdictList (items : Option (List VerdictItem)) : VerdictListOutput :=
  match items with
  | none => .na
  | some [] => .na
  | some l => .entries ((l.take 4).map renderVerdictItem)

/-- Number of keyword entries rendered by a verdict list (the `N/A`
placeholder renders no keyword entry). -/
def verdictCount : VerdictListOutput → ℕ
  | .na => 0
  | .entries l => l.length

/-- Output of the legacy pros/cons rendering: `N/A` placeholder or all
entries. -/
inductive LegacyListOutput where
  | na
  | entries (items : List String)
  deriving DecidableEq

/-- Pros/cons rendering of the legacy script (popup.js lines 293-313):
`const pros = data.pros_cons_panel.pros || []`, then every entry is
emitted with `pros.forEach` — no `.slice(0, 4)` cap.  Entries are
interpolated directly, modelled as strings. -/
def legacyVerdictList (items : Option (List String)) : LegacyListOutput :=
  match items with
  | none => .na
  | some [] => .na
  | some l => .entries l

/-- The DOM/state writes `displayResults` performs before reaching the
`pros_cons_panel` access, in source order: product name, saved
`currentProductData.url`, score, sentiment bar width, sentiment label
percent, summary text.  The sentiment label text is
`"<percent>% Positive"`; its numeric content is modelled. -/
structure HeaderOutput where
  productName : String
  savedUrl : String
  score : Option ℚ
  barWidthPercent : ℚ
  sentimentPercent : ℚ
  summaryText : String
  deriving DecidableEq

/-- Header writes of `displayResults` (popup.js lines 84-94). -/
def renderHeader (d : AnalysisResult) (po : PublicOpinion) : HeaderOutput :=
  { productName := jsOrStr d.product_name "Product Name Not Found"
    savedUrl := jsOrStr d.product_url ""
    score := displayedScore d po
    barWidthPercent := jsOrRat po.positive_percent 0
    sentimentPercent := jsOrRat po.positive_percent 0
    summaryText := jsOrStr d.review_summary_generator "No summary available." }

/-- Outcome of `displayResults`: the early-return error state, a
`TypeError` escaping after the header writes (`threw`), or a complete
render. -/
inductive RenderResult where
  | errorState (msg : String)
  | threw (written : HeaderOutput)
  | rendered (header : HeaderOutput) (pros : VerdictListOutput) (cons : VerdictListOutput)
  deriving DecidableEq

/-- `displayResults` (popup.js lines 78-99, part_000 lines 66-92):
guard `if (!data || !data.public_opinion)` shows the fixed error message
and returns; otherwise the header is written and
`data.pros_cons_panel.pros` / `.cons` are accessed — when
`pros_cons_panel` is absent that property access throws a `TypeError`
(after the header writes). -/
def displayResults (data : Option AnalysisResult) : RenderResult :=
  match data with
  | none => .errorState "Received invalid data from the server."
  | some d =>
    match d.public_opinion with
    | none => .errorState "Received invalid data from the server."
    | some po =>
      match d.pros_cons_panel with
      | none => .threw (renderHeader d po)
      | some panel =>
        .rendered (renderHeader d po)
          (populateVerdictList panel.pros)
          (populateVerdictList panel.cons)

/-- The score written into `scoreEl`, if `displayResults` got that far
(`none` in the error state; the score is written even when the later
panel access throws). -/
def renderedScore : RenderResult → Option (Option ℚ)
  | .errorState _ => none
  | .threw h => some h.score
  | .rendered h _ _ => some h.score

/-- Bookmark add (popup.js lines 133-148): reject and notify when
`bookmarks.some(b => b.product_name === currentProductData.product_name)`,
otherwise persist `[...bookmarks, currentProductData]`.  The boolean is
true exactly when the duplicate notice was shown. -/
def addBookmark (bookmarks : List AnalysisResult) (current : AnalysisResult) :
    List AnalysisResult × Bool :=
  if bookmarks.any fun b => b.product_name == current.product_name then
    (bookmarks, true)
  else
    (bookmarks ++ [current], false)

/-- JavaScript `Array.prototype.filter` with the index argument:
`filterIdxNeAux j i l` keeps the elements of `l` whose running index
(starting at `j`) differs from `i`. -/
def filterIdxNeAux {α : Type*} (j i : ℕ) : List α → List α
  | [] => []
  | a :: l =>
    if j ≠ i then a :: filterIdxNeAux (j + 1) i l
    else filterIdxNeAux (j + 1) i l

/-- Bookmark delete (popup.js line 192):
`bookmarks.filter((_, index) => index !== indexToDelete)`. -/
def deleteBookmark (bookmarks : List AnalysisResult) (i : ℕ) : List AnalysisResult :=
  filterIdxNeAux 0 i bookmarks

/-- A parsed error-response body, holding the optional `detail` field. -/
structure ErrorBody where
  detail : Option String
  deriving DecidableEq

/-- Error message shown by the main script's `callBackend` (popup.js
lines 54-71) for a non-ok response: the body is parsed and the rejection
reaches `catch`, which shows `error.detail ||` a connection-failure
template.  When the body parses (`parsed = some body`), the rejected
value is the plain body object, whose `.message` is `undefined`; when
parsing fails (`parsed = none`), the rejection is the `SyntaxError`,
which has no `.detail` and whose `.message` is the parse error text.
The HTTP status is never interpolated on this path. -/
def callBackendErrMsgMain (parsed : Option ErrorBody) (parseErrMsg : String) : String :=
  match parsed with
  | some body =>
    match body.detail with
    | some d =>
      if d = "" then "Connection failed: undefined. Is the local server running?" else d
    | none => "Connection failed: undefined. Is the local server running?"
  | none => "Connection failed: " ++ parseErrMsg ++ ". Is the local server running?"

/-- Error message shown by `callBackend` of part_000 (lines 35-59) for a
non-ok response with the given status: when the body parses, `throw new
Error(err.detail || "Server error: " + status)` and `catch` wraps
`error.message` in the connection-failure template; when parsing fails,
the `SyntaxError` reaches `catch` directly and its message is wrapped
instead — the status is not interpolated on that path.  (The legacy
script at popup.js lines 235-264 is identical up to the wording
`Server responded with status:`.) -/
def callBackendErrMsgPart000 (status : ℕ) (parsed : Option ErrorBody)
    (parseErrMsg : String) : String :=
  match parsed with
  | some body =>
    let m :=
      match body.detail with
      | some d => if d = "" then "Server error: " ++ toString status else d
      | none => "Server error: " ++ toString status
    "Connection failed: " ++ m ++ ". Is the local server running?"
  | none => "Connection failed: " ++ parseErrMsg ++ ". Is the local server running?"

/-- Decidable substring test used to state what a surfaced message does
or does not contain. -/
def strContains (s sub : String) : Bool :=
  (List.range (s.data.length + 1)).any fun k => sub.data.isPrefixOf (s.data.drop k)

end Popup

namespace Popup

/-- Concrete response: rating "4.5 out of 5", 80% positive, no
overall_score, panel present but empty. -/
def exC1 : AnalysisResult :=
  { product_name := some "Widget"
    product_url := none
    rating := some "4.5 out of 5"
    overall_score := none
    public_opinion := some { positive_percent := some 80 }
    review_summary_generator := none
    pros_cons_panel := some { pros := none, cons := none } }

/-- Concrete response whose `pros_cons_panel` is absent (everything else
well-formed). -/
def exC2 : AnalysisResult :=
  { product_name := some "Widget"
    product_url := none
    rating := some "4.5 out of 5"
    overall_score := none
    public_opinion := some { positive_percent := some 80 }
    review_summary_generator := none
    pros_cons_panel := none }

/-- Concrete response with every optional field absent but
`public_opinion` and `pros_cons_panel` present (both empty inside). -/
def exC2a : AnalysisResult :=
  { product_name := none
    product_url := none
    rating := none
    overall_score := none
    public_opinion := some { positive_percent := none }
    review_summary_generator := none
    pros_cons_panel := some { pros := none, cons := none } }

/-- Concrete response with `public_opinion` absent. -/
def exC3 : AnalysisResult :=
  { product_name := none
    product_url := none
    rating := none
    overall_score := none
    public_opinion := none
    review_summary_generator := none
    pros_cons_panel := none }

/-- Concrete response like `exC1` but with a present, zero
`overall_score`. -/
def exC10 : AnalysisResult :=
  { product_name := some "Widget"
    product_url := none
    rating := some "4.5 out of 5"
    overall_score := some 0
    public_opinion := some { positive_percent := some 80 }
    review_summary_generator := none
    pros_cons_panel := some { pros := none, cons := none } }

/-- Minimal bookmark entry named "A". -/
def exBm1 : AnalysisResult :=
  { product_name := some "A"
    product_url := none
    rating := none
    overall_score := none
    public_opinion := none
    review_summary_generator := none
    pros_cons_panel := none }

/-- Minimal bookmark entry named "B". -/
def exBm2 : AnalysisResult :=
  { exBm1 with product_name := some "B" }

/-- Verdict item with the given keyword and no examples. -/
def vi (k : String) : VerdictItem :=
  { keyword := some k, examples := none }

/-- A 60-character example string. -/
def sLong : String :=
  "ABCDEFGHIJKLMNOPQRSTUVWXYZabcdefghijklmnopqrstuvwxyz01234567"

theorem rat_floor_eq_int_floor (q : ℚ) : q.floor = ⌊q⌋ := by
  rw [Rat.floor_def', Rat.floor_def]

theorem roundTo1_eq_round (q : ℚ) : roundTo1 q = (round (q * 10) : ℤ) / 10 := by
  rw [roundTo1, round_eq, rat_floor_eq_int_floor]

theorem roundTo1_eval (q x : ℚ) (z : ℤ)
    (h1 : q * 10 + 1 / 2 = x) (h2 : (z : ℚ) ≤ x) (h3 : x < z + 1) :
    roundTo1 q = (z : ℚ) / 10 := by
  rw [roundTo1, h1, rat_floor_eq_int_floor, Int.floor_eq_iff.mpr ⟨h2, h3⟩]

theorem jsOrRat_some_zero (p : ℚ) : jsOrRat (some p) 0 = p := by
  by_cases h : p = 0 <;> simp [jsOrRat, h]

theorem parseFloat_leadingToken_45 :
    parseFloat (leadingToken "4.5 out of 5") = some (9 / 2) := by
  have h : parseFloat (leadingToken "4.5 out of 5") =
      some ((1 : ℚ) * (((4 : ℕ) : ℚ) + ((5 : ℕ) : ℚ) / (10 : ℚ) ^ (1 : ℕ))) := rfl
  rw [h]
  norm_num

theorem ratingNumber_none_eq : ratingNumber none = some 0 := by
  have h : ratingNumber none =
      some ((1 : ℚ) * (((0 : ℕ) : ℚ) + ((0 : ℕ) : ℚ) / (10 : ℚ) ^ (0 : ℕ))) := rfl
  rw [h]
  norm_num

theorem filterIdxNeAux_gt {α : Type*} (l : List α) :
    ∀ j i, i < j → filterIdxNeAux j i l = l := by
  induction l with
  | nil => intro j i _; rfl
  | cons a t ih =>
    intro j i h
    have hne : j ≠ i := by omega
    simp [filterIdxNeAux, hne, ih (j + 1) i (by omega)]

theorem filterIdxNeAux_take_drop {α : Type*} (l : List α) :
    ∀ j k, filterIdxNeAux j (j + k) l = l.take k ++ l.drop (k + 1) := by
  induction l with
  | nil => intro j k; simp [filterIdxNeAux]
  | cons a t ih =>
    intro j k
    cases k with
    | zero =>
      simp [filterIdxNeAux, filterIdxNeAux_gt t (j + 1) j (by omega)]
    | succ m =>
      have hne : j ≠ j + (m + 1) := by omega
      have he : j + (m + 1) = (j + 1) + m := by omega
      rw [filterIdxNeAux, if_pos hne, he, ih (j + 1) m]
      simp

/-- Claim C1: for every response lacking `overall_score` but carrying a
rating string with a numeric leading token and a
`public_opinion.positive_percent`, the score rendered by `displayResults`
is `round(((rating/5*10)*0.6 + (positive_percent/10)*0.4), 1)`. -/
theorem c1_fallback_score_formula (d : AnalysisResult) (po : PublicOpinion)
    (s : String) (r p : ℚ)
    (hs : d.overall_score = none)
    (hpo : d.public_opinion = some po)
    (hr : d.rating = some s)
    (hn : parseFloat (leadingToken s) = some r)
    (hp : po.positive_percent = some p) :
    renderedScore (displayResults (some d)) =
      some (some (roundTo1 ((r / 5 * 10) * (6 / 10) + (p / 10) * (4 / 10)))) := by
  have hne : s ≠ "" := by
    intro he
    rw [he, show parseFloat (leadingToken "") = none from rfl] at hn
    exact Option.noConfusion hn
  have hrn : ratingNumber d.rating = some r := by
    rw [hr]; simpa [ratingNumber, jsOrStr, hne] using hn
  cases hpan : d.pros_cons_panel <;>
    simp [displayResults, hpo, hpan, renderedScore, renderHeader, displayedScore, hs,
      fallbackScore, calculateScore, hrn, hp, jsOrRat_some_zero]

/-- Witness for C1: rating "4.5 out of 5" (leading token 4.5 = 9/2) with
positive_percent 80 renders the score 43/5 = 8.6. -/
theorem c1_fallback_score_formula_witness :
    renderedScore (displayResults (some exC1)) =
      some (some (roundTo1 ((((9 : ℚ) / 2) / 5 * 10) * (6 / 10) + (((80 : ℚ)) / 10) * (4 / 10)))) ∧
    roundTo1 ((((9 : ℚ) / 2) / 5 * 10) * (6 / 10) + (((80 : ℚ)) / 10) * (4 / 10)) = 43 / 5 := by
  constructor
  · exact c1_fallback_score_formula exC1 { positive_percent := some 80 } "4.5 out of 5"
      (9 / 2) 80 rfl rfl rfl parseFloat_leadingToken_45 rfl
  · rw [roundTo1_eval _ (173 / 2) 86 (by norm_num) (by norm_num) (by norm_num)]
    norm_num

/-- Counterexample to claim C2 as stated: a response whose top-level
`public_opinion` is present but whose `pros_cons_panel` is absent makes
`displayResults` throw a `TypeError` at the `data.pros_cons_panel.pros`
access (popup.js line 95, part_000 line 88, legacy script line 294),
after the header writes — it does not degrade to a default. -/
theorem c2_counterexample :
    displayResults (some exC2) =
      RenderResult.threw (renderHeader exC2 { positive_percent := some 80 }) := rfl

/-- Claim C2 (amended): for every response with `public_opinion` present,
`displayResults` does not throw provided `pros_cons_panel` is also
present; every other optional field access degrades to its documented
default (placeholder product name, empty saved URL, placeholder summary,
0 percent, rating treated as 0, `N/A` verdict lists).  When
`pros_cons_panel` itself is absent the renderer throws (see the
counterexample). -/
theorem c2_amended_no_throw_with_panel (d : AnalysisResult) (po : PublicOpinion)
    (panel : ProsConsPanel)
    (hpo : d.public_opinion = some po)
    (hpanel : d.pros_cons_panel = some panel) :
    displayResults (some d) =
      RenderResult.rendered (renderHeader d po)
        (populateVerdictList panel.pros) (populateVerdictList panel.cons) ∧
    (d.product_name = none → (renderHeader d po).productName = "Product Name Not Found") ∧
    (d.product_url = none → (renderHeader d po).savedUrl = "") ∧
    (d.review_summary_generator = none →
      (renderHeader d po).summaryText = "No summary available.") ∧
    (po.positive_percent = none → (renderHeader d po).sentimentPercent = 0) ∧
    (d.rating = none → d.overall_score = none →
      (renderHeader d po).score =
        some (roundTo1 ((jsOrRat po.positive_percent 0 / 10) * (4 / 10)))) ∧
    (panel.pros = none → populateVerdictList panel.pros = VerdictListOutput.na) := by
  refine ⟨?_, ?_, ?_, ?_, ?_, ?_, ?_⟩
  · simp [displayResults, hpo, hpanel]
  · intro h; simp [renderHeader, jsOrStr, h]
  · intro h; simp [renderHeader, jsOrStr, h]
  · intro h; simp [renderHeader, jsOrStr, h]
  · intro h; simp [renderHeader, jsOrRat, h]
  · intro h1 h2
    simp [renderHeader, displayedScore, h2, fallbackScore, calculateScore, h1,
      ratingNumber_none_eq]
  · intro h; simp [populateVerdictList, h]

/-- Witness for the amended C2: a response with every optional field
absent (but `public_opinion` and an empty `pros_cons_panel` present)
renders without throwing, with every documented default, score 0. -/
theorem c2_amended_no_throw_with_panel_witness :
    displayResults (some exC2a) =
      RenderResult.rendered (renderHeader exC2a { positive_percent := none })
        VerdictListOutput.na VerdictListOutput.na ∧
    (renderHeader exC2a { positive_percent := none }).productName = "Product Name Not Found" ∧
    (renderHeader exC2a { positive_percent := none }).summaryText = "No summary available." ∧
    (renderHeader exC2a { positive_percent := none }).sentimentPercent = 0 ∧
    (renderHeader exC2a { positive_percent := none }).score = some 0 := by
  have h := c2_amended_no_throw_with_panel exC2a { positive_percent := none }
    { pros := none, cons := none } rfl rfl
  refine ⟨h.1, h.2.1 rfl, h.2.2.2.1 rfl, h.2.2.2.2.1 rfl, ?_⟩
  have hs := h.2.2.2.2.2.1 rfl rfl
  rw [hs, show jsOrRat (none : Option ℚ) 0 = 0 from rfl,
    roundTo1_eval _ (1 / 2) 0 (by norm_num) (by norm_num) (by norm_num)]
  norm_num

/-- Claim C3: for a null/absent response, or one whose `public_opinion`
is absent, `displayResults` enters the error state with the fixed message
and performs no further field access (the result is the same
`errorState` for every value of the other fields — no header write, no
throw). -/
theorem c3_missing_public_opinion (a : AnalysisResult)
    (h : a.public_opinion = none) :
    displayResults none = RenderResult.errorState "Received invalid data from the server." ∧
    displayResults (some a) =
      RenderResult.errorState "Received invalid data from the server." := by
  exact ⟨rfl, by simp [displayResults, h]⟩

/-- Witness for C3 at the all-absent response. -/
theorem c3_missing_public_opinion_witness :
    displayResults none = RenderResult.errorState "Received invalid data from the server." ∧
    displayResults (some exC3) =
      RenderResult.errorState "Received invalid data from the server." :=
  c3_missing_public_opinion exC3 rfl

/-- Claim C10: when `overall_score` is present but equal to 0 (falsy),
the renderer ignores the server value and renders the fallback formula
score instead — the `data.overall_score || calculateScore(data)` test is
a truthiness check, not a field-existence check. -/
theorem c10_zero_overall_score (d : AnalysisResult) (po : PublicOpinion)
    (hs : d.overall_score = some 0)
    (hpo : d.public_opinion = some po) :
    renderedScore (displayResults (some d)) = some (fallbackScore d.rating po) := by
  cases hpan : d.pros_cons_panel <;>
    simp [displayResults, hpo, hpan, renderedScore, renderHeader, displayedScore, hs]

/-- Witness for C10: `overall_score = 0` with rating "4.5 out of 5" and
80% positive renders the computed 43/5 = 8.6, not the server's 0. -/
theorem c10_zero_overall_score_witness :
    renderedScore (displayResults (some exC10)) =
      some (fallbackScore exC10.rating { positive_percent := some 80 }) ∧
    fallbackScore exC10.rating { positive_percent := some 80 } = some (43 / 5) := by
  refine ⟨c10_zero_overall_score exC10 { positive_percent := some 80 } rfl rfl, ?_⟩
  have h : fallbackScore exC10.rating { positive_percent := some 80 } =
      some (roundTo1 ((((1 : ℚ) * (((4 : ℕ) : ℚ) + ((5 : ℕ) : ℚ) / (10 : ℚ) ^ (1 : ℕ))) / 5 * 10) *
        (6 / 10) + (((80 : ℚ)) / 10) * (4 / 10))) := rfl
  rw [h, roundTo1_eval _ (173 / 2) 86 (by norm_num) (by norm_num) (by norm_num)]
  norm_num

/-- Claim C4: adding a bookmark whose `product_name` exactly equals an
existing entry's leaves the stored list unchanged and shows the duplicate
notice; adding one with no matching name appends it at the end,
preserving all prior entries and their order (and shows no duplicate
notice). -/
theorem c4_add_bookmark (bs : List AnalysisResult) (c : AnalysisResult) :
    ((∃ b ∈ bs, b.product_name = c.product_name) → addBookmark bs c = (bs, true)) ∧
    ((∀ b ∈ bs, b.product_name ≠ c.product_name) →
      addBookmark bs c = (bs ++ [c], false)) := by
  constructor
  · rintro ⟨b, hb, he⟩
    have ha : (bs.any fun b => b.product_name == c.product_name) = true :=
      List.any_eq_true.mpr ⟨b, hb, by simp [he]⟩
    simp [addBookmark, ha]
  · intro h
    have ha : ¬ (bs.any fun b => b.product_name == c.product_name) = true := by
      rw [List.any_eq_true]
      rintro ⟨b, hb, he⟩
      exact h b hb (by simpa using he)
    simp [addBookmark, ha]

/-- Witness for C4: re-adding the product named "A" leaves the singleton
list unchanged with the notice; adding the distinctly named "B" appends
it. -/
theorem c4_add_bookmark_witness :
    addBookmark [exBm1] exBm1 = ([exBm1], true) ∧
    addBookmark [exBm1] exBm2 = ([exBm1, exBm2], false) :=
  ⟨(c4_add_bookmark [exBm1] exBm1).1 ⟨exBm1, by simp, rfl⟩,
    (c4_add_bookmark [exBm1] exBm2).2 (by
      intro b hb
      rw [List.mem_singleton.mp hb]
      simp [exBm1, exBm2])⟩

/-- Claim C5: deleting index `i` (0 ≤ i < n) from a stored bookmark list
of length `n` yields the other `n - 1` entries in their original
relative order (the entries before `i` followed by the entries after
`i`). -/
theorem c5_delete_bookmark (bs : List AnalysisResult) (i : ℕ) (h : i < bs.length) :
    deleteBookmark bs i = bs.take i ++ bs.drop (i + 1) ∧
    (deleteBookmark bs i).length = bs.length - 1 := by
  have he : deleteBookmark bs i = bs.take i ++ bs.drop (i + 1) := by
    have h0 := filterIdxNeAux_take_drop bs 0 i
    simpa [deleteBookmark] using h0
  refine ⟨he, ?_⟩
  rw [he]
  simp only [List.length_append, List.length_take, List.length_drop]
  omega

/-- Witness for C5: deleting index 0 from the two-entry list leaves
exactly the second entry. -/
theorem c5_delete_bookmark_witness :
    deleteBookmark [exBm1, exBm2] 0 = [exBm2] ∧
    (deleteBookmark [exBm1, exBm2] 0).length = 1 := by
  have h := c5_delete_bookmark [exBm1, exBm2] 0 (by simp)
  simpa using h

/-- Counterexample to claim C6 as stated: the legacy renderer (popup.js
lines 293-313), one of the three renderers, renders all five entries of
a five-entry list rather than exactly the first four. -/
theorem c6_counterexample :
    legacyVerdictList (some ["a", "b", "c", "d", "e"]) =
      LegacyListOutput.entries ["a", "b", "c", "d", "e"] ∧
    (["a", "b", "c", "d", "e"] : List String).length ≠ 4 := by
  exact ⟨rfl, by simp⟩

/-- Claim C6 (amended): for pros/cons lists with more than 4 entries the
`populateVerdictList` renderers (main popup.js and part_000) render
exactly the first 4 entries in original order; the legacy inline
renderer renders every entry, uncapped. -/
theorem c6_amended_first_four (items : List VerdictItem) (h : 4 < items.length) :
    (populateVerdictList (some items) =
        VerdictListOutput.entries ((items.take 4).map renderVerdictItem) ∧
      verdictCount (populateVerdictList (some items)) = 4) ∧
    ∀ l : List String, l ≠ [] → legacyVerdictList (some l) = LegacyListOutput.entries l := by
  constructor
  · cases items with
    | nil => simp at h
    | cons a t =>
      constructor
      · rfl
      · simp only [populateVerdictList, verdictCount, List.length_map, List.length_take,
          List.length_cons]
        simp at h
        omega
  · intro l hl
    cases l with
    | nil => exact absurd rfl hl
    | cons a t => rfl

/-- Witness for the amended C6 at a five-entry list. -/
theorem c6_amended_first_four_witness :
    populateVerdictList (some [vi "a", vi "b", vi "c", vi "d", vi "e"]) =
      VerdictListOutput.entries
        (([vi "a", vi "b", vi "c", vi "d", vi "e"].take 4).map renderVerdictItem) ∧
    verdictCount (populateVerdictList (some [vi "a", vi "b", vi "c", vi "d", vi "e"])) = 4 :=
  (c6_amended_first_four [vi "a", vi "b", vi "c", vi "d", vi "e"] (by simp)).1

/-- Counterexample to claim C7 as stated: for the present but
unparseable rating string "unrated", the parsed rating is `NaN`
(modelled `none`), not 0, and the fallback score is `NaN` — the claimed
default to 0 applies only to an absent (or empty) rating field. -/
theorem c7_counterexample :
    ratingNumber (some "unrated") ≠ some 0 ∧
    ratingNumber (some "unrated") = none ∧
    calculateScore (some "unrated") { positive_percent := some 80 } = none := by
  refine ⟨?_, rfl, rfl⟩
  rw [show ratingNumber (some "unrated") = none from rfl]
  simp

/-- Claim C7 (amended): the rating used by the fallback formula is the
leading floating-point token of the rating string; it is 0 when the
rating field is absent or the empty string (both falsy, replaced by
"0"); when the field is present and nonempty, the parsed value is
exactly `parseFloat` of the leading token — `NaN` (not 0) if that token
is unparseable. -/
theorem c7_amended_rating_parse (ro : Option String) :
    (ro = none → ratingNumber ro = some 0) ∧
    (ro = some "" → ratingNumber ro = some 0) ∧
    (∀ s, ro = some s → s ≠ "" → ratingNumber ro = parseFloat (leadingToken s)) := by
  refine ⟨?_, ?_, ?_⟩
  · intro h
    rw [h, ratingNumber_none_eq]
  · intro h
    rw [h, show ratingNumber (some "") = ratingNumber none from rfl, ratingNumber_none_eq]
  · intro s h hne
    rw [h]
    simp [ratingNumber, jsOrStr, hne]

/-- Witness for the amended C7: the rating string "4.5 out of 5" parses
to its leading token value 9/2 = 4.5. -/
theorem c7_amended_rating_parse_witness :
    ratingNumber (some "4.5 out of 5") = parseFloat (leadingToken "4.5 out of 5") ∧
    parseFloat (leadingToken "4.5 out of 5") = some (9 / 2) :=
  ⟨(c7_amended_rating_parse (some "4.5 out of 5")).2.2 "4.5 out of 5" rfl (by simp),
    parseFloat_leadingToken_45⟩

/-- Claim C8: an example text longer than 50 characters is rendered as
its first 50 characters followed by the ellipsis marker "..."; text of
length at most 50 is rendered unmodified; and the quote rendered for a
verdict item is exactly this truncation of its first example. -/
theorem c8_truncate_example (s : String) (item : VerdictItem) (e : String)
    (rest : List String) (hex : item.examples = some (e :: rest)) :
    (50 < s.length → truncateExample s = String.mk (s.data.take 50) ++ "...") ∧
    (s.length ≤ 50 → truncateExample s = s) ∧
    (renderVerdictItem item).quote = some (truncateExample e) := by
  refine ⟨?_, ?_, ?_⟩
  · intro h
    simp [truncateExample, h]
  · intro h
    simp [truncateExample, Nat.not_lt.mpr h]
  · simp [renderVerdictItem, hex]

/-- Witness for C8: the 60-character `sLong` is truncated to its first
50 characters plus "..."; the 5-character "short" is unmodified and is
the quote rendered for an item whose first example it is. -/
theorem c8_truncate_example_witness :
    truncateExample sLong = String.mk (sLong.data.take 50) ++ "..." ∧
    truncateExample "short" = "short" ∧
    (renderVerdictItem { keyword := some "quality", examples := some ["short"] }).quote =
      some (truncateExample "short") ∧
    truncateExample sLong = "ABCDEFGHIJKLMNOPQRSTUVWXYZabcdefghijklmnopqrstuvwx..." :=
  ⟨(c8_truncate_example sLong { keyword := none, examples := some [""] } "" [] rfl).1
      (by decide),
    (c8_truncate_example "short" { keyword := none, examples := some [""] } "" [] rfl).2.1
      (by decide),
    (c8_truncate_example "x" { keyword := some "quality", examples := some ["short"] }
      "short" [] rfl).2.2,
    rfl⟩

/-- Counterexample to claim C9 as stated: a 500 response whose error
body fails to parse — in every variant the surfaced message is the
connection-failure message carrying the parse error, and it does not
contain the HTTP status code. -/
theorem c9_counterexample :
    callBackendErrMsgPart000 500 none "Unexpected end of JSON input" =
      "Connection failed: Unexpected end of JSON input. Is the local server running?" ∧
    callBackendErrMsgMain none "Unexpected end of JSON input" =
      "Connection failed: Unexpected end of JSON input. Is the local server running?" ∧
    strContains
      "Connection failed: Unexpected end of JSON input. Is the local server running?"
      "500" = false := by
  refine ⟨rfl, rfl, by decide⟩

/-- Claim C9 (amended): on a non-success response, a parsed error body
with a nonempty `detail` is surfaced (verbatim as the whole message in
the main script; embedded in the connection-failure wrapper in the
part_000/legacy variants); a parsed body without `detail` yields, in the
part_000/legacy variants, a server-error message carrying the HTTP
status inside the wrapper (the main script instead shows a fixed
connection message with no status); when the body fails to parse, every
variant surfaces the parse error in the connection-failure wrapper and
the status does not appear. -/
theorem c9_amended_error_message (st : ℕ) (parsed : Option ErrorBody) (pe d : String) :
    (parsed = some { detail := some d } → d ≠ "" →
      callBackendErrMsgMain parsed pe = d ∧
      callBackendErrMsgPart000 st parsed pe =
        "Connection failed: " ++ d ++ ". Is the local server running?") ∧
    (parsed = some { detail := none } →
      callBackendErrMsgMain parsed pe =
        "Connection failed: undefined. Is the local server running?" ∧
      callBackendErrMsgPart000 st parsed pe =
        "Connection failed: Server error: " ++ toString st ++
          ". Is the local server running?") ∧
    (parsed = none →
      callBackendErrMsgMain parsed pe =
        "Connection failed: " ++ pe ++ ". Is the local server running?" ∧
      callBackendErrMsgPart000 st parsed pe =
        "Connection failed: " ++ pe ++ ". Is the local server running?") := by
  refine ⟨?_, ?_, ?_⟩
  · intro h hne
    rw [h]
    exact ⟨by simp [callBackendErrMsgMain, hne], by simp [callBackendErrMsgPart000, hne]⟩
  · intro h
    rw [h]
    exact ⟨rfl, rfl⟩
  · intro h
    rw [h]
    exact ⟨rfl, rfl⟩

/-- Witness for the amended C9: a 404 with body detail "Invalid URL" is
surfaced verbatim by the main script; a 404 with a detail-less parsed
body yields a message containing the status 404 in part_000. -/
theorem c9_amended_error_message_witness :
    callBackendErrMsgMain (some { detail := some "Invalid URL" }) "x" = "Invalid URL" ∧
    callBackendErrMsgPart000 404 (some { detail := none }) "x" =
      "Connection failed: Server error: " ++ toString (404 : ℕ) ++
        ". Is the local server running?" ∧
    strContains (callBackendErrMsgPart000 404 (some { detail := none }) "x") "404" = true :=
  ⟨((c9_amended_error_message 404 (some { detail := some "Invalid URL" }) "x"
      "Invalid URL").1 rfl (by simp)).1,
    ((c9_amended_error_message 404 (some { detail := none }) "x" "").2.1 rfl).2,
    by decide⟩

end Popup
